import Mathlib

/-!
Verification of `server.py`, the Kokoro OpenAI-compatible TTS server.

The file shallowly embeds the data model and the operations of the server:
the static configuration tables, the language/voice resolution performed by
the `/v1/audio/speech` handler, the pipeline loader and its process-wide
state, the synthesizer's segment collection, the audio format converter,
and the handler's control flow (validation order, reload reconciliation,
error mapping).  External collaborators (the Kokoro `KPipeline` model, the
mp3/opus/soundfile encoders, Python's `float` string parsing) are
abstracted as parameters of an `Env` record or modelled on their
documented behaviour; everything the repository itself computes is
translated directly from the source.  Audio samples are rationals, exact
stand-ins for the floats the pipeline produces.
-/

namespace KokoroServer

/-- A JSON value as it can appear in a request body field.  Objects and
arrays are irrelevant to the verified claims and are omitted; numbers are
modelled as rationals (exact stand-ins for the floats Flask's JSON parser
produces). -/
inductive JVal where
  | null
  | bool (b : Bool)
  | num (q : ℚ)
  | str (s : String)
deriving Repr, DecidableEq

/-- Python truthiness (`if not text:`) restricted to the `JVal` fragment. -/
def truthy : JVal → Bool
  | .null => false
  | .bool b => b
  | .num q => q != 0
  | .str s => !s.isEmpty

/-- `MODEL_ID` from server.py line 25. -/
def MODEL_ID : String := "hexgrad/Kokoro-82M"

/-- `DEFAULT_LANG_CODE = 'a'` (server.py line 26). -/
def DEFAULT_LANG_CODE : String := "a"

/-- `DEFAULT_VOICE = "af_heart"` (server.py line 27). -/
def DEFAULT_VOICE : String := "af_heart"

/-- `SUPPORTED_FORMATS` (server.py line 28). -/
def SUPPORTED_FORMATS : List String := ["mp3", "opus", "aac", "flac", "wav", "pcm"]

/-- The `supported_langs` dict (server.py lines 33–43), as an association
list in Python insertion order (dicts preserve insertion order). -/
def supported_langs : List (String × String) :=
  [ ("a", "American English"),
    ("b", "British English"),
    ("e", "Spanish"),
    ("f", "French"),
    ("h", "Hindi"),
    ("i", "Italian"),
    ("p", "Brazilian Portuguese"),
    ("j", "Japanese"),
    ("z", "Mandarin Chinese") ]

/-- The keys of `supported_langs`; `parts[0] in supported_langs` tests
membership among these. -/
def langCodes : List String := supported_langs.map Prod.fst

/-- Split a character list at the first `'.'`: returns `none` when no dot
occurs, otherwise the part before the first dot and the remainder after it.
This is exactly Python's `s.split('.', 1)` in the case a dot is present. -/
def splitFirstDot : List Char → Option (List Char × List Char)
  | [] => none
  | c :: cs =>
    if c = '.' then some ([], cs)
    else
      match splitFirstDot cs with
      | none => none
      | some (p, r) => some (c :: p, r)

/-- String-level view of `voice.split('.', 1)` when the voice contains a
dot: the prefix before the first dot and the remainder after it. -/
def pySplitOnce (s : String) : Option (String × String) :=
  (splitFirstDot s.data).map fun pr => (String.mk pr.1, String.mk pr.2)

/-- Language resolution from the speech handler (server.py lines 227–233):
start from the default language; if the voice contains a dot and has length
greater than 2, split at the first dot, and only when the prefix is a known
language code adopt it as the language and drop it from the voice. -/
def resolveLangVoice (voice : String) : String × String :=
  if voice.data.contains '.' ∧ voice.length > 2 then
    match pySplitOnce voice with
    | some (p, r) => if p ∈ langCodes then (p, r) else (DEFAULT_LANG_CODE, voice)
    | none => (DEFAULT_LANG_CODE, voice)
  else (DEFAULT_LANG_CODE, voice)

/-- The Kokoro `KPipeline` object, abstracted to the one attribute the
server reads: `lang_code`, the language code it was constructed with
(`KPipeline(lang_code=...)`, read back via
`getattr(tts_pipeline, 'lang_code', None)` on server.py line 243). -/
structure KPipeline where
  lang_code : String
deriving Repr, DecidableEq

/-- The process-wide mutable globals of server.py: `tts_pipeline`
(line 31) and `supported_voices` (line 32), both starting as `None`. -/
structure ServerState where
  tts_pipeline : Option KPipeline
  supported_voices : Option (List String)
deriving Repr, DecidableEq

/-- External collaborators of the server, kept abstract: whether
`KPipeline(lang_code=...)` construction raises (and with what message),
the pipeline's generator output for a (pipeline language, text, voice,
speed) invocation (`Except.error` models an exception raised by the
model), and the three external encoders (pydub mp3 export, the ffmpeg
opus path, and `soundfile.write` for the remaining formats). -/
structure Env where
  pipelineFailure : String → Option String
  gen : String → JVal → String → ℚ → Except String (List (List ℚ))
  mp3Encode : List ℚ → Nat → List Nat
  opusEncode : List ℚ → Nat → List Nat
  sfWrite : List ℚ → Nat → String → List Nat

/-- `get_supported_voices` (server.py lines 45–66): a fixed curated list
for American English, a fixed four-voice fallback for every other
language.  The `except` branch of the Python function is unreachable
(its body raises nothing) and is not modelled. -/
def get_supported_voices (lang_code : String) : List String :=
  if lang_code = "a" then
    [ "af_heart", "af_alloy", "af_aoede", "af_bella", "af_jessica", "af_kore", "af_nicole",
      "af_nova", "af_river", "af_sarah", "af_sky", "am_adam", "am_echo", "am_eric",
      "am_fenrir", "am_liam", "am_michael", "am_onyx", "am_puck", "am_santa", "bf_alice",
      "bf_emma", "bf_isabella", "bf_lily", "bm_daniel", "bm_fable", "bm_george", "bm_lewis" ]
  else
    ["en_female_1", "en_male_1", "en_female_2", "en_male_2"]

/-- `load_pipeline` (server.py lines 68–94): constructs a new `KPipeline`
bound to `lang_code` and refreshes the voice cache, replacing both
globals; if construction raises, the exception propagates and neither
global is assigned. -/
def load_pipeline (env : Env) (lang_code : String) (_st : ServerState) :
    Except String ServerState :=
  match env.pipelineFailure lang_code with
  | some msg => .error msg
  | none =>
    .ok { tts_pipeline := some ⟨lang_code⟩,
          supported_voices := some (get_supported_voices lang_code) }

/-- Truncation toward zero of a rational, matching the C-style float→int
conversion numpy applies in `astype`. -/
def truncQ (q : ℚ) : Int := Int.tdiv q.num q.den

/-- Reinterpretation of an integer as a 16-bit two's-complement value,
the wrap-around semantics of numpy's cast to `np.int16`. -/
def toInt16 (x : Int) : Int :=
  let m := x % 65536
  if m < 32768 then m else m - 65536

/-- The two little-endian bytes of a 16-bit value, as `tobytes()` emits
them for one `np.int16` element. -/
def int16LEBytes (x : Int) : List Nat :=
  let u := (x % 65536).toNat
  [u % 256, u / 256]

/-- The pcm branch of the converter (server.py lines 189–193):
`(audio_array * 32767).astype(np.int16)` followed by `tobytes()` — each
sample multiplied by 32767, truncated to the 16-bit signed integer type
with no clipping guard, and serialized as two little-endian bytes. -/
def pcmBytes (audio_array : List ℚ) : List Nat :=
  (audio_array.map fun s => int16LEBytes (toInt16 (truncQ (s * 32767)))).flatten

/-- `convert_audio_format` (server.py lines 138–199): an unsupported
format name is silently replaced by `"mp3"`; then mp3 dispatches to the
pydub path, opus to the ffmpeg path, pcm to the in-process int16 packing,
and every other supported format to `soundfile.write`.  The
tensor-to-array normalization (lines 151–154) is a no-op here because the
model works on plain sample lists. -/
def convert_audio_format (env : Env) (audio_array : List ℚ) (sample_rate : Nat)
    (format_name : String) : List Nat :=
  let format_name := if format_name ∈ SUPPORTED_FORMATS then format_name else "mp3"
  if format_name = "mp3" then env.mp3Encode audio_array sample_rate
  else if format_name = "opus" then env.opusEncode audio_array sample_rate
  else if format_name = "pcm" then pcmBytes audio_array
  else env.sfWrite audio_array sample_rate format_name

/-- Segment collection and combination from `generate_speech` (server.py
lines 113–123): all produced segments are gathered in production order;
with more than one segment `np.concatenate` joins them along the time
axis, with exactly one that segment is taken, and with zero the
subscript `audio_segments[0]` raises an `IndexError`. -/
def combineSegments (audio_segments : List (List ℚ)) : Except String (List ℚ) :=
  if audio_segments.length > 1 then .ok audio_segments.flatten
  else
    match audio_segments with
    | [] => .error "list index out of range"
    | s :: _ => .ok s

/-- `generate_speech` (server.py lines 96–136): loads the pipeline if none
is present, runs the pipeline generator, combines the segments, and
converts the combined buffer (sample rate fixed at 24000) to the requested
format; any exception propagates to the caller.  The result pairs the
possibly-updated globals with either the raised message or the
(audio bytes, response format) pair. -/
def generate_speech (env : Env) (text : JVal) (voice lang_code response_format : String)
    (speed : ℚ) (st : ServerState) : ServerState × Except String (List Nat × String) :=
  match (if st.tts_pipeline = none then load_pipeline env lang_code st else .ok st) with
  | .error msg => (st, .error msg)
  | .ok st1 =>
    match st1.tts_pipeline with
    | none => (st1, .error "\x27NoneType\x27 object is not callable")
    | some p =>
      match env.gen p.lang_code text voice speed with
      | .error msg => (st1, .error msg)
      | .ok segs =>
        match combineSegments segs with
        | .error msg => (st1, .error msg)
        | .ok combined =>
          (st1, .ok (convert_audio_format env combined 24000 response_format, response_format))

/-- Value of a digit string, most significant first. -/
def digitsToNat (cs : List Char) : Nat :=
  cs.foldl (fun n c => 10 * n + (c.toNat - 48)) 0

/-- Parse an unsigned decimal literal (digits with an optional single
point), the core of Python's `float` string acceptance.  Exponents,
special values and surrounding whitespace are outside the model. -/
def parseDecimal (cs : List Char) : Option ℚ :=
  let intPart := cs.takeWhile (fun c => c.isDigit)
  let rest := cs.dropWhile (fun c => c.isDigit)
  match rest with
  | [] => if intPart.isEmpty then none else some ((digitsToNat intPart : ℚ))
  | '.' :: frac =>
    if frac.all (fun c => c.isDigit) && (!intPart.isEmpty || !frac.isEmpty) then
      some ((digitsToNat (intPart ++ frac) : ℚ) / ((10 : ℚ) ^ frac.length))
    else none
  | _ => none

/-- Signed decimal literal. -/
def parseFloatString (s : String) : Option ℚ :=
  match s.data with
  | '+' :: rest => parseDecimal rest
  | '-' :: rest => (parseDecimal rest).map Neg.neg
  | cs => parseDecimal cs

/-- Python's `float(...)` builtin on a JSON value: numbers and booleans
coerce, numeric strings parse, anything else raises (the `Except.error`
carries the exception's message). -/
def pyFloat : JVal → Except String ℚ
  | .num q => .ok q
  | .bool b => .ok (if b then 1 else 0)
  | .null => .error "float() argument must be a string or a real number, not \x27NoneType\x27"
  | .str s =>
    match parseFloatString s with
    | some q => .ok q
    | none => .error ("could not convert string to float: \x27" ++ s ++ "\x27")

/-- The body of a `/v1/audio/speech` request, after JSON parsing.  `model`
is accepted and ignored; `voice` and `response_format` are strings in every
behaviour the claims quantify over. -/
structure SpeechBody where
  model : Option JVal := none
  input : Option JVal := none
  voice : Option String := none
  response_format : Option String := none
  speed : Option JVal := none
deriving Repr, DecidableEq

/-- `float(data.get('speed', 1.0))` (server.py line 221): the default is
1.0, a supplied value goes through the `float` coercion. -/
def getSpeed (d : SpeechBody) : Except String ℚ :=
  match d.speed with
  | none => .ok 1
  | some v => pyFloat v

/-- An HTTP response of the speech handler: a 400 rejection with a single
error string, a 500 failure with the exception message, or the 200
`send_file` answer with its mimetype, bytes and download name. -/
inductive HResp where
  | badRequest (error : String)
  | serverError (error : String)
  | audio (mimetype : String) (audio_bytes : List Nat) (download_name : String)
deriving Repr, DecidableEq

/-- A record of the moment `generate_speech` is invoked by the handler:
the arguments passed and the globals in force at that point. -/
structure SynthCall where
  text : JVal
  voice : String
  lang_code : String
  response_format : String
  speed : ℚ
  state : ServerState
deriving Repr, DecidableEq

/-- The outcome of one handler invocation: the response, the globals
afterwards, and the synthesis invocation if one was reached. -/
structure HandlerResult where
  resp : HResp
  state : ServerState
  synth : Option SynthCall
deriving Repr, DecidableEq

/-- Python's `repr` of a list of strings, as interpolated into the
handler's error messages. -/
def pyListRepr (xs : List String) : String :=
  "[" ++ String.intercalate ", " (xs.map fun s => "\x27" ++ s ++ "\x27") ++ "]"

/-- The unsupported-voice message of server.py line 250. -/
def voiceErrorMsg (voice lang_code : String) (voices : List String) : String :=
  "Voice \x27" ++ voice ++ "\x27 not supported for language \x27" ++ lang_code ++
    "\x27. Supported voices: " ++ pyListRepr voices

/-- The unsupported-format message of server.py line 254. -/
def formatErrorMsg (response_format : String) : String :=
  "Format \x27" ++ response_format ++ "\x27 not supported. Supported formats: " ++
    pyListRepr SUPPORTED_FORMATS

/-- The mimetype chosen for the success response (server.py lines
268–272). -/
def mimetype_for (format_name : String) : String :=
  if format_name = "wav" then "audio/wav"
  else if format_name = "pcm" then "audio/pcm"
  else "audio/" ++ format_name

/-- The reload reconciliation of server.py lines 243–245: reload when the
voice cache is missing, no pipeline is loaded, or the loaded pipeline's
`lang_code` attribute differs from the resolved language code. -/
def reconcilePipeline (env : Env) (st : ServerState) (lang_code : String) :
    Except String ServerState :=
  if st.supported_voices = none ∨ st.tts_pipeline = none ∨
      st.tts_pipeline.map KPipeline.lang_code ≠ some lang_code then
    load_pipeline env lang_code st
  else .ok st

/-- Lines 259–281: invoke `generate_speech` and shape the `send_file`
answer (or map a raised exception to a 500).  The `SynthCall` component
records that synthesis was reached and with which arguments/state. -/
def runSynthesis (env : Env) (text : JVal) (voice lang_code response_format : String)
    (speed : ℚ) (st1 : ServerState) : HandlerResult :=
  match generate_speech env text voice lang_code response_format speed st1 with
  | (st2, .error msg) =>
    ⟨.serverError msg, st2, some ⟨text, voice, lang_code, response_format, speed, st1⟩⟩
  | (st2, .ok res) =>
    ⟨.audio (mimetype_for res.2) res.1 ("speech." ++ res.2), st2,
      some ⟨text, voice, lang_code, response_format, speed, st1⟩⟩

/-- Lines 247–281: the voice and format validation against the (now
loaded) registry, then synthesis.  A `None` voice registry at this point
would make Python's `in` raise; the branch is unreachable because the
reconciliation always leaves a loaded cache. -/
def validateAndSynth (env : Env) (text : JVal) (voice lang_code response_format : String)
    (speed : ℚ) (st1 : ServerState) : HandlerResult :=
  match st1.supported_voices with
  | none => ⟨.serverError "argument of type \x27NoneType\x27 is not iterable", st1, none⟩
  | some voices =>
    if voice ∉ voices then
      ⟨.badRequest (voiceErrorMsg voice lang_code voices), st1, none⟩
    else if response_format ∉ SUPPORTED_FORMATS then
      ⟨.badRequest (formatErrorMsg response_format), st1, none⟩
    else
      runSynthesis env text voice lang_code response_format speed st1

/-- Lines 242–281: reconcile the pipeline with the resolved language (a
load failure becomes a 500 with the globals untouched), then validate and
synthesize. -/
def afterInput (env : Env) (text : JVal) (voice lang_code response_format : String)
    (speed : ℚ) (st : ServerState) : HandlerResult :=
  match reconcilePipeline env st lang_code with
  | .error msg => ⟨.serverError msg, st, none⟩
  | .ok st1 => validateAndSynth env text voice lang_code response_format speed st1

/-- The `/v1/audio/speech` handler `create_speech` (server.py lines
201–286).  `data` is the parsed JSON body (`none` models `request.get_json`
returning `None`).  In source order: invalid JSON → 400; parameter
extraction, where the `float` coercion of `speed` can raise (caught by the
outer handler as a 500); language/voice resolution; falsy `input` → 400;
then the reconcile/validate/synthesize stages above. -/
def create_speech (env : Env) (data : Option SpeechBody) (st : ServerState) : HandlerResult :=
  match data with
  | none => ⟨.badRequest "Invalid JSON", st, none⟩
  | some d =>
    match getSpeed d with
    | .error msg => ⟨.serverError msg, st, none⟩
    | .ok speed =>
      match d.input with
      | none => ⟨.badRequest "Missing required parameter: input", st, none⟩
      | some text =>
        if truthy text = false then
          ⟨.badRequest "Missing required parameter: input", st, none⟩
        else
          afterInput env text (resolveLangVoice (d.voice.getD DEFAULT_VOICE)).2
            (resolveLangVoice (d.voice.getD DEFAULT_VOICE)).1
            (d.response_format.getD "mp3") speed st

/-- One entry of the `/v1/languages` response. -/
structure LangEntry where
  code : String
  name : String
deriving Repr, DecidableEq

/-- The `/v1/languages` response shape. -/
structure LangListResponse where
  object : String
  data : List LangEntry
deriving Repr, DecidableEq

/-- The `/v1/languages` handler `list_languages` (server.py lines
305–313): one entry per `supported_langs` item, in table order. -/
def list_languages : LangListResponse :=
  { object := "list",
    data := supported_langs.map fun p => ⟨p.1, p.2⟩ }

/-- A benign environment for concrete evaluations: pipeline construction
never fails, the generator yields one two-sample segment, and the external
encoders are simple length/rate stubs. -/
def envW : Env :=
  { pipelineFailure := fun _ => none,
    gen := fun _ _ _ _ => .ok [[(0 : ℚ), 1]],
    mp3Encode := fun a sr => [a.length, sr],
    opusEncode := fun _ _ => [],
    sfWrite := fun _ _ _ => [] }

/-- An environment whose generator yields no segments at all. -/
def envNoSegs : Env :=
  { envW with gen := fun _ _ _ _ => .ok [] }

/-- Fresh-process globals: nothing loaded. -/
def stEmpty : ServerState := ⟨none, none⟩

/-- Globals after a successful load for American English. -/
def stLoadedA : ServerState := ⟨some ⟨"a"⟩, some (get_supported_voices "a")⟩

/-- A valid pcm request body. -/
def bodyPcm : SpeechBody := { input := some (.str "hi"), response_format := some "pcm" }

/-- A body selecting British English through a voice prefix. -/
def bodyLangB : SpeechBody := { input := some (.str "hi"), voice := some "b.en_female_1" }

/-- A body whose `speed` is a non-numeric string. -/
def bodyBadSpeed : SpeechBody := { input := some (.str "hi"), speed := some (.str "fast") }

/-- A body whose `input` is the empty string. -/
def bodyEmptyInput : SpeechBody := { input := some (.str "") }

/-- Globals after a successful load for British English. -/
def stLoadedB : ServerState := ⟨some ⟨"b"⟩, some (get_supported_voices "b")⟩

/-- The synthesis invocation produced by `bodyLangB` against a process
that had American English loaded. -/
def synthCallB : SynthCall := ⟨.str "hi", "en_female_1", "b", "mp3", 1, stLoadedB⟩

/-- A successful first-dot split means the string does contain a dot. -/
theorem splitFirstDot_some_contains {cs : List Char} {p r : List Char}
    (h : splitFirstDot cs = some (p, r)) : cs.contains '.' = true := by
  induction cs generalizing p r with
  | nil => simp [splitFirstDot] at h
  | cons c cs ih =>
    unfold splitFirstDot at h
    by_cases hc : c = '.'
    · simp [hc, List.contains_cons]
    · simp only [if_neg hc] at h
      cases hsplit : splitFirstDot cs with
      | none => rw [hsplit] at h; simp at h
      | some pr =>
        rw [hsplit] at h
        cases pr with
        | mk p' r' =>
          simp only [Option.some.injEq, Prod.mk.injEq] at h
          simp only [List.contains_cons, Bool.or_eq_true]
          exact Or.inr (ih (p := p') (r := r') (by rw [hsplit]))

theorem pySplitOnce_some_contains {s : String} {p r : String}
    (h : pySplitOnce s = some (p, r)) : s.data.contains '.' = true := by
  unfold pySplitOnce at h
  cases hsplit : splitFirstDot s.data with
  | none => rw [hsplit] at h; simp at h
  | some pr => exact splitFirstDot_some_contains hsplit

/-- C1: for a voice string containing a dot, of length greater than 2, the
handler adopts the prefix before the first dot as the language code and the
remainder as the voice exactly when the prefix is a known language code;
otherwise both the default language and the unmodified voice string (dot
included) are kept. -/
theorem C1_lang_prefix_resolution (voice p r : String)
    (hsplit : pySplitOnce voice = some (p, r))
    (hlen : voice.length > 2) :
    (p ∈ langCodes → resolveLangVoice voice = (p, r)) ∧
    (p ∉ langCodes → resolveLangVoice voice = (DEFAULT_LANG_CODE, voice)) := by
  have hdot : voice.data.contains '.' = true := pySplitOnce_some_contains hsplit
  constructor
  · intro hmem
    unfold resolveLangVoice
    rw [if_pos ⟨hdot, hlen⟩, hsplit]
    simp [hmem]
  · intro hmem
    unfold resolveLangVoice
    rw [if_pos ⟨hdot, hlen⟩, hsplit]
    simp [hmem]

/-- Concrete instance of C1: the voice string `"b.bf_emma"` resolves to
language `"b"` with voice `"bf_emma"`, and the unknown prefix in
`"x.voice"` leaves the default language and the full string in place. -/
theorem C1_lang_prefix_resolution_witness :
    resolveLangVoice "b.bf_emma" = ("b", "bf_emma") ∧
    resolveLangVoice "x.voice" = (DEFAULT_LANG_CODE, "x.voice") :=
  ⟨(C1_lang_prefix_resolution "b.bf_emma" "b" "bf_emma" (by decide) (by decide)).1
      (by decide),
    (C1_lang_prefix_resolution "x.voice" "x" "voice" (by decide) (by decide)).2
      (by decide)⟩

/-- C4: a format name outside the six supported tokens does not make the
converter fail; it is silently replaced by mp3, and the output is exactly
what the mp3 path produces. -/
theorem C4_unsupported_format_falls_back_to_mp3 (env : Env) (audio_array : List ℚ)
    (sample_rate : Nat) (format_name : String)
    (h : format_name ∉ SUPPORTED_FORMATS) :
    convert_audio_format env audio_array sample_rate format_name
      = env.mp3Encode audio_array sample_rate ∧
    convert_audio_format env audio_array sample_rate format_name
      = convert_audio_format env audio_array sample_rate "mp3" := by
  constructor <;>
    simp [convert_audio_format, if_neg h]

/-- Concrete instance of C4: format name `"xml"` is encoded through the
mp3 path. -/
theorem C4_unsupported_format_falls_back_to_mp3_witness :
    convert_audio_format envW [(0 : ℚ)] 24000 "xml"
      = Env.mp3Encode envW [(0 : ℚ)] 24000 :=
  (C4_unsupported_format_falls_back_to_mp3 envW [(0 : ℚ)] 24000 "xml"
    (by decide)).1

/-- Each pcm sample contributes exactly two bytes. -/
theorem pcmBytes_length (audio_array : List ℚ) :
    (pcmBytes audio_array).length = 2 * audio_array.length := by
  unfold pcmBytes
  induction audio_array with
  | nil => rfl
  | cons s t ih =>
    simp only [List.map_cons, List.flatten_cons, List.length_append, ih, List.length_cons]
    have h2 : (int16LEBytes (toInt16 (truncQ (s * 32767)))).length = 2 := rfl
    rw [h2]
    omega

/-- C9: the `/v1/languages` response lists exactly one entry per defined
language code, pairing each code with its fixed name, in the declaration
order of the table. -/
theorem C9_languages_listing :
    list_languages.object = "list" ∧
    list_languages.data =
      [ ⟨"a", "American English"⟩, ⟨"b", "British English"⟩, ⟨"e", "Spanish"⟩,
        ⟨"f", "French"⟩, ⟨"h", "Hindi"⟩, ⟨"i", "Italian"⟩,
        ⟨"p", "Brazilian Portuguese"⟩, ⟨"j", "Japanese"⟩, ⟨"z", "Mandarin Chinese"⟩ ] ∧
    (list_languages.data.map LangEntry.code).Nodup ∧
    list_languages.data.length = supported_langs.length := by
  refine ⟨rfl, rfl, ?_, rfl⟩
  decide

/-- C6: with at least one produced segment, the synthesizer's combination
step returns the concatenation of the segments in production order, whose
sample count is the sum of the segment sample counts; `generate_speech`
then encodes exactly that buffer. -/
theorem C6_segments_concatenated_in_order (audio_segments : List (List ℚ))
    (hne : audio_segments ≠ []) :
    combineSegments audio_segments = Except.ok audio_segments.flatten ∧
    audio_segments.flatten.length = (audio_segments.map List.length).sum ∧
    (∀ (env : Env) (text : JVal) (voice lang_code response_format : String)
        (speed : ℚ) (st : ServerState) (p : KPipeline),
      st.tts_pipeline = some p →
      env.gen p.lang_code text voice speed = Except.ok audio_segments →
      generate_speech env text voice lang_code response_format speed st =
        (st, Except.ok
          (convert_audio_format env audio_segments.flatten 24000 response_format,
            response_format))) := by
  have hcomb : combineSegments audio_segments = Except.ok audio_segments.flatten := by
    cases audio_segments with
    | nil => exact absurd rfl hne
    | cons s t =>
      cases t with
      | nil => simp [combineSegments]
      | cons s2 t2 => simp [combineSegments]
  refine ⟨hcomb, ?_, ?_⟩
  · simp [List.length_flatten]
  · intro env text voice lang_code response_format speed st p hp hgen
    simp [generate_speech, hp, hgen, hcomb]

/-- Concrete instance of C6 at a two-segment production. -/
theorem C6_segments_concatenated_in_order_witness :
    combineSegments [[(1 : ℚ), 2], [3]] = Except.ok [(1 : ℚ), 2, 3] ∧
    ([[(1 : ℚ), 2], [3]].flatten).length = ([[(1 : ℚ), 2], [3]].map List.length).sum :=
  ⟨(C6_segments_concatenated_in_order [[(1 : ℚ), 2], [3]] (by decide)).1,
    (C6_segments_concatenated_in_order [[(1 : ℚ), 2], [3]] (by decide)).2.1⟩

/-- C10: when the pipeline generator yields zero segments the synthesizer
raises the empty-subscript `IndexError` and no encoding happens — the
result is an error, never audio bytes — and an `ok` outcome of the
combination step forces at least one segment. -/
theorem C10_zero_segments_error (env : Env) (text : JVal)
    (voice lang_code response_format : String) (speed : ℚ)
    (st : ServerState) (p : KPipeline)
    (hp : st.tts_pipeline = some p)
    (hgen : env.gen p.lang_code text voice speed = Except.ok []) :
    (generate_speech env text voice lang_code response_format speed st).2
      = Except.error "list index out of range" ∧
    (∀ segs combined, combineSegments segs = Except.ok combined → segs ≠ []) := by
  constructor
  · simp [generate_speech, hp, hgen, combineSegments]
  · intro segs combined hok hnil
    subst hnil
    simp [combineSegments] at hok

/-- Concrete instance of C10. -/
theorem C10_zero_segments_error_witness :
    (generate_speech envNoSegs (JVal.str "hi") "af_heart" "a" "mp3" 1 stLoadedA).2
      = Except.error "list index out of range" :=
  (C10_zero_segments_error envNoSegs (JVal.str "hi") "af_heart" "a" "mp3" 1 stLoadedA
    ⟨"a"⟩ rfl rfl).1

/-- C7: a body whose `input` is the empty string is rejected with the 400
missing-input error, leaving the globals untouched and never reaching
synthesis, identically to a body with no `input` field at all. -/
theorem C7_empty_input_like_missing (env : Env) (st : ServerState) :
    create_speech env (some bodyEmptyInput) st
      = ⟨HResp.badRequest "Missing required parameter: input", st, none⟩ ∧
    create_speech env (some bodyEmptyInput) st
      = create_speech env (some { input := none }) st := by
  constructor <;> rfl

/-- C8: `speed` defaults to 1.0, and a non-numeric supplied value makes
the `float` coercion raise, which the handler surfaces as a 500 response
carrying the exception message, before any state change or synthesis. -/
theorem C8_speed_default_and_error_surfacing (env : Env) (st : ServerState)
    (d : SpeechBody) :
    (d.speed = none → getSpeed d = Except.ok 1) ∧
    (∀ v msg, d.speed = some v → pyFloat v = Except.error msg →
      create_speech env (some d) st = ⟨HResp.serverError msg, st, none⟩) := by
  constructor
  · intro h
    simp [getSpeed, h]
  · intro v msg hv herr
    have hsp : getSpeed d = Except.error msg := by simp [getSpeed, hv, herr]
    simp [create_speech, hsp]

/-- Concrete instance of C8: a string speed of `"fast"` produces the 500
with Python's conversion error message. -/
theorem C8_speed_default_and_error_surfacing_witness :
    create_speech envW (some bodyBadSpeed) stEmpty
      = ⟨HResp.serverError "could not convert string to float: \x27fast\x27", stEmpty, none⟩ :=
  (C8_speed_default_and_error_surfacing envW stEmpty bodyBadSpeed).2
    (JVal.str "fast") "could not convert string to float: \x27fast\x27" rfl rfl

/-- A successful synthesis result carries the response format the handler
passed in. -/
theorem generate_speech_ok_format (env : Env) (text : JVal)
    (voice lang_code response_format : String) (speed : ℚ) (st st2 : ServerState)
    (b : List Nat) (f : String)
    (h : generate_speech env text voice lang_code response_format speed st
      = (st2, Except.ok (b, f))) :
    f = response_format := by
  unfold generate_speech at h
  repeat' split at h
  all_goals simp_all

/-- The synthesis stage always records its invocation with its arguments
and the state it was entered with. -/
theorem runSynthesis_synth (env : Env) (text : JVal)
    (voice lang_code response_format : String) (speed : ℚ) (st1 : ServerState) :
    (runSynthesis env text voice lang_code response_format speed st1).synth
      = some ⟨text, voice, lang_code, response_format, speed, st1⟩ := by
  unfold runSynthesis
  split <;> rfl

/-- The synthesis stage never answers with a 400. -/
theorem runSynthesis_no_badRequest (env : Env) (text : JVal)
    (voice lang_code response_format : String) (speed : ℚ) (st1 : ServerState)
    (msg : String) :
    (runSynthesis env text voice lang_code response_format speed st1).resp
      ≠ HResp.badRequest msg := by
  unfold runSynthesis
  split <;> simp

/-- When the synthesis stage answers with audio, the mimetype is the one
derived from the response format passed in. -/
theorem runSynthesis_audio_mimetype (env : Env) (text : JVal)
    (voice lang_code response_format : String) (speed : ℚ) (st1 : ServerState)
    (mt : String) (b : List Nat) (f : String)
    (h : (runSynthesis env text voice lang_code response_format speed st1).resp
      = HResp.audio mt b f) :
    mt = mimetype_for response_format := by
  unfold runSynthesis at h
  split at h
  · simp at h
  · rename_i st2 res heq
    simp only [HResp.audio.injEq] at h
    have hfmt : res.2 = response_format :=
      generate_speech_ok_format env text voice lang_code response_format speed st1 st2
        res.1 res.2 (by simpa using heq)
    rw [← h.1, hfmt]

/-- Every outcome of the validation stage: the unreachable missing-cache
500, a 400 with no synthesis, or delegation to the synthesis stage. -/
theorem validateAndSynth_shape (env : Env) (text : JVal)
    (voice lang_code response_format : String) (speed : ℚ) (st1 : ServerState) :
    (∃ m, validateAndSynth env text voice lang_code response_format speed st1
        = ⟨HResp.serverError m, st1, none⟩) ∨
    (∃ m, validateAndSynth env text voice lang_code response_format speed st1
        = ⟨HResp.badRequest m, st1, none⟩) ∨
    validateAndSynth env text voice lang_code response_format speed st1
      = runSynthesis env text voice lang_code response_format speed st1 := by
  cases hv : st1.supported_voices with
  | none =>
    exact Or.inl ⟨"argument of type \x27NoneType\x27 is not iterable",
      by simp [validateAndSynth, hv]⟩
  | some voices =>
    by_cases hvoice : voice ∉ voices
    · exact Or.inr (Or.inl ⟨voiceErrorMsg voice lang_code voices,
        by simp [validateAndSynth, hv, hvoice]⟩)
    · by_cases hfmt : response_format ∉ SUPPORTED_FORMATS
      · exact Or.inr (Or.inl ⟨formatErrorMsg response_format,
          by simp [validateAndSynth, hv, hvoice, hfmt]⟩)
      · exact Or.inr (Or.inr (by simp [validateAndSynth, hv, hvoice, hfmt]))

/-- Every outcome of the reconcile stage: a 500 with the globals
untouched, or delegation to validation with the reconciled state. -/
theorem afterInput_shape (env : Env) (text : JVal)
    (voice lang_code response_format : String) (speed : ℚ) (st : ServerState) :
    (∃ m, afterInput env text voice lang_code response_format speed st
        = ⟨HResp.serverError m, st, none⟩) ∨
    (∃ st1, reconcilePipeline env st lang_code = Except.ok st1 ∧
      afterInput env text voice lang_code response_format speed st
        = validateAndSynth env text voice lang_code response_format speed st1) := by
  cases heq : reconcilePipeline env st lang_code with
  | error m => exact Or.inl ⟨m, by simp [afterInput, heq]⟩
  | ok st1 =>
    refine Or.inr ⟨st1, rfl, ?_⟩
    simp [afterInput, heq]

/-- Every outcome of the handler's front matter: a 400 or 500 before any
state change, or delegation to the reconcile stage with the resolved
language, voice, format and speed. -/
theorem create_speech_shape (env : Env) (data : Option SpeechBody) (st : ServerState) :
    (∃ m, create_speech env data st = ⟨HResp.badRequest m, st, none⟩) ∨
    (∃ m, create_speech env data st = ⟨HResp.serverError m, st, none⟩) ∨
    (∃ d text speed, data = some d ∧ d.input = some text ∧
      getSpeed d = Except.ok speed ∧ truthy text = true ∧
      create_speech env data st =
        afterInput env text (resolveLangVoice (d.voice.getD DEFAULT_VOICE)).2
          (resolveLangVoice (d.voice.getD DEFAULT_VOICE)).1
          (d.response_format.getD "mp3") speed st) := by
  cases data with
  | none => exact Or.inl ⟨_, rfl⟩
  | some d =>
    cases hs : getSpeed d with
    | error m => exact Or.inr (Or.inl ⟨m, by simp [create_speech, hs]⟩)
    | ok speed =>
      cases hin : d.input with
      | none =>
        exact Or.inl ⟨"Missing required parameter: input",
          by simp [create_speech, hs, hin]⟩
      | some text =>
        by_cases ht : truthy text = false
        · exact Or.inl ⟨"Missing required parameter: input",
            by simp [create_speech, hs, hin, ht]⟩
        · refine Or.inr (Or.inr ⟨d, text, speed, rfl, hin, hs, by simpa using ht, ?_⟩)
          simp [create_speech, hs, hin, ht]

/-- A reconciled state always carries a pipeline bound to the requested
language; and when the incoming pipeline was absent or bound to a
different language, the reconciled state is the full replacement produced
by `load_pipeline`: a fresh pipeline handle and a fresh voice cache. -/
theorem reconcilePipeline_ok (env : Env) (st st1 : ServerState) (lang_code : String)
    (h : reconcilePipeline env st lang_code = Except.ok st1) :
    st1.tts_pipeline = some ⟨lang_code⟩ ∧
    (st.tts_pipeline.map KPipeline.lang_code ≠ some lang_code →
      st1 = ⟨some ⟨lang_code⟩, some (get_supported_voices lang_code)⟩) := by
  unfold reconcilePipeline at h
  by_cases hcond : st.supported_voices = none ∨ st.tts_pipeline = none ∨
      st.tts_pipeline.map KPipeline.lang_code ≠ some lang_code
  · rw [if_pos hcond] at h
    unfold load_pipeline at h
    cases hpf : env.pipelineFailure lang_code with
    | some m => rw [hpf] at h; simp at h
    | none =>
      rw [hpf] at h
      simp only [Except.ok.injEq] at h
      subst h
      exact ⟨rfl, fun _ => rfl⟩
  · rw [if_neg hcond] at h
    simp only [Except.ok.injEq] at h
    subst h
    push_neg at hcond
    obtain ⟨-, -, hmap⟩ := hcond
    constructor
    · cases hsp : st.tts_pipeline with
      | none => rw [hsp] at hmap; simp at hmap
      | some p =>
        rw [hsp] at hmap
        cases p with
        | mk lc =>
          have hlc : lc = lang_code := by simpa using hmap
          rw [hlc]
    · intro hmis
      exact absurd hmap hmis

/-- A 400 from the validation stage never reaches synthesis. -/
theorem validateAndSynth_badRequest_synth (env : Env) (text : JVal)
    (voice lang_code response_format : String) (speed : ℚ) (st1 : ServerState)
    (msg : String)
    (h : (validateAndSynth env text voice lang_code response_format speed st1).resp
      = HResp.badRequest msg) :
    (validateAndSynth env text voice lang_code response_format speed st1).synth = none := by
  rcases validateAndSynth_shape env text voice lang_code response_format speed st1 with
    ⟨m, hv⟩ | ⟨m, hv⟩ | hv
  · rw [hv] at h; simp at h
  · rw [hv]
  · rw [hv] at h
    exact absurd h
      (runSynthesis_no_badRequest env text voice lang_code response_format speed st1 msg)

/-- C3: whenever the speech handler rejects a request with a 400 — invalid
JSON, missing input, unsupported voice or unsupported format, each carrying
a single error string — synthesis is never reached for that request. -/
theorem C3_client_rejections_never_synthesize (env : Env) (data : Option SpeechBody)
    (st : ServerState) (msg : String)
    (h : (create_speech env data st).resp = HResp.badRequest msg) :
    (create_speech env data st).synth = none := by
  rcases create_speech_shape env data st with
    ⟨m, hcs⟩ | ⟨m, hcs⟩ | ⟨d, text, speed, hd, hin, hs, ht, hcs⟩
  · rw [hcs]
  · rw [hcs] at h; simp at h
  · rw [hcs] at h ⊢
    rcases afterInput_shape env text (resolveLangVoice (d.voice.getD DEFAULT_VOICE)).2
        (resolveLangVoice (d.voice.getD DEFAULT_VOICE)).1
        (d.response_format.getD "mp3") speed st with ⟨m, hai⟩ | ⟨st1, hrec, hai⟩
    · rw [hai] at h; simp at h
    · rw [hai] at h ⊢
      exact validateAndSynth_badRequest_synth env text _ _ _ speed st1 msg h

/-- Concrete instance of C3: the invalid-JSON rejection does not reach
synthesis. -/
theorem C3_client_rejections_never_synthesize_witness :
    (create_speech envW none stEmpty).synth = none :=
  C3_client_rejections_never_synthesize envW none stEmpty "Invalid JSON" rfl

/-- The validation stage only ever records the synthesis invocation built
from its own arguments and entry state. -/
theorem validateAndSynth_synth_inv (env : Env) (text : JVal)
    (voice lang_code response_format : String) (speed : ℚ) (st1 : ServerState)
    (c : SynthCall)
    (h : (validateAndSynth env text voice lang_code response_format speed st1).synth
      = some c) :
    c = ⟨text, voice, lang_code, response_format, speed, st1⟩ := by
  rcases validateAndSynth_shape env text voice lang_code response_format speed st1 with
    ⟨m, hv⟩ | ⟨m, hv⟩ | hv
  · rw [hv] at h; simp at h
  · rw [hv] at h; simp at h
  · rw [hv, runSynthesis_synth] at h
    simp only [Option.some.injEq] at h
    exact h.symm

/-- C2: whenever a speech request reaches synthesis, the pipeline bound in
the globals at that moment carries exactly the request's resolved language
code; and when the incoming pipeline was absent or bound to a different
language, the state at synthesis is the full replacement written by
`load_pipeline` — a new pipeline handle together with a new voice-registry
cache. -/
theorem C2_pipeline_language_reconciled (env : Env) (data : Option SpeechBody)
    (st : ServerState) (c : SynthCall)
    (h : (create_speech env data st).synth = some c) :
    c.state.tts_pipeline = some ⟨c.lang_code⟩ ∧
    (st.tts_pipeline.map KPipeline.lang_code ≠ some c.lang_code →
      c.state = ⟨some ⟨c.lang_code⟩, some (get_supported_voices c.lang_code)⟩) := by
  rcases create_speech_shape env data st with
    ⟨m, hcs⟩ | ⟨m, hcs⟩ | ⟨d, text, speed, hd, hin, hs, ht, hcs⟩
  · rw [hcs] at h; simp at h
  · rw [hcs] at h; simp at h
  · rw [hcs] at h
    rcases afterInput_shape env text (resolveLangVoice (d.voice.getD DEFAULT_VOICE)).2
        (resolveLangVoice (d.voice.getD DEFAULT_VOICE)).1
        (d.response_format.getD "mp3") speed st with ⟨m, hai⟩ | ⟨st1, hrec, hai⟩
    · rw [hai] at h; simp at h
    · rw [hai] at h
      have hc := validateAndSynth_synth_inv env text _ _ _ speed st1 c h
      have hrc := reconcilePipeline_ok env st st1
        (resolveLangVoice (d.voice.getD DEFAULT_VOICE)).1 hrec
      subst hc
      exact hrc

/-- Concrete instance of C2: a request prefixed `"b."` against a process
holding the American English pipeline forces a full reload to British
English before synthesis. -/
theorem C2_pipeline_language_reconciled_witness :
    synthCallB.state.tts_pipeline = some ⟨synthCallB.lang_code⟩ ∧
    (stLoadedA.tts_pipeline.map KPipeline.lang_code ≠ some synthCallB.lang_code →
      synthCallB.state
        = ⟨some ⟨synthCallB.lang_code⟩, some (get_supported_voices synthCallB.lang_code)⟩) :=
  C2_pipeline_language_reconciled envW (some bodyLangB) stLoadedA synthCallB rfl

/-- C5: pcm encoding returns exactly two bytes per sample — each sample
multiplied by 32767 and truncated to the 16-bit signed integer type with
no clipping guard — and a successful speech response for a pcm request
carries content type `audio/pcm`. -/
theorem C5_pcm_bytes_and_mimetype (env : Env) (audio_array : List ℚ) (sample_rate : Nat) :
    convert_audio_format env audio_array sample_rate "pcm"
      = (audio_array.map fun s => int16LEBytes (toInt16 (truncQ (s * 32767)))).flatten ∧
    (convert_audio_format env audio_array sample_rate "pcm").length
      = 2 * audio_array.length ∧
    mimetype_for "pcm" = "audio/pcm" ∧
    (∀ (d : SpeechBody) (st : ServerState) (mt : String) (b : List Nat) (f : String),
      d.response_format = some "pcm" →
      (create_speech env (some d) st).resp = HResp.audio mt b f →
      mt = "audio/pcm") := by
  refine ⟨rfl, pcmBytes_length audio_array, rfl, ?_⟩
  intro d st mt b f hfmt h
  rcases create_speech_shape env (some d) st with
    ⟨m, hcs⟩ | ⟨m, hcs⟩ | ⟨d', text, speed, hd, hin, hs, ht, hcs⟩
  · rw [hcs] at h; simp at h
  · rw [hcs] at h; simp at h
  · injection hd with hdd
    subst hdd
    rw [hcs] at h
    rcases afterInput_shape env text (resolveLangVoice (d.voice.getD DEFAULT_VOICE)).2
        (resolveLangVoice (d.voice.getD DEFAULT_VOICE)).1
        (d.response_format.getD "mp3") speed st with ⟨m, hai⟩ | ⟨st1, hrec, hai⟩
    · rw [hai] at h; simp at h
    · rw [hai] at h
      rcases validateAndSynth_shape env text (resolveLangVoice (d.voice.getD DEFAULT_VOICE)).2
          (resolveLangVoice (d.voice.getD DEFAULT_VOICE)).1
          (d.response_format.getD "mp3") speed st1 with ⟨m, hv⟩ | ⟨m, hv⟩ | hv
      · rw [hv] at h; simp at h
      · rw [hv] at h; simp at h
      · rw [hv] at h
        have := runSynthesis_audio_mimetype env text
          (resolveLangVoice (d.voice.getD DEFAULT_VOICE)).2
          (resolveLangVoice (d.voice.getD DEFAULT_VOICE)).1
          (d.response_format.getD "mp3") speed st1 mt b f h
        rw [this, hfmt]
        rfl

/-- Concrete instance of C5: a two-sample pcm request produces four bytes
and the `audio/pcm` content type. -/
theorem C5_pcm_bytes_and_mimetype_witness :
    (convert_audio_format envW [(0 : ℚ), 1] 24000 "pcm").length
      = 2 * ([(0 : ℚ), 1].length) ∧
    ("audio/pcm" : String) = "audio/pcm" :=
  ⟨(C5_pcm_bytes_and_mimetype envW [(0 : ℚ), 1] 24000).2.1,
    (C5_pcm_bytes_and_mimetype envW [(0 : ℚ), 1] 24000).2.2.2 bodyPcm stLoadedA
      "audio/pcm" (pcmBytes [(0 : ℚ), 1]) "speech.pcm" rfl rfl⟩

end KokoroServer
